import Mathlib

/-!
Verification development for the librbd I/O dispatch layer:
the image request work queue (src/src/librbd/AioImageRequestWQ.cc) and the
image request send paths (src/unnamed/part_000, AioImageRequest.cc).

The embedding is shallow: the C++ state that the claims mention is carried
in explicit records, and each C++ member function becomes a Lean function
from state to state (plus an effect record describing the calls made on
external collaborators such as the image watcher, the object store, the
cache and the journal). Parts of the repository that are not in the
extracted sources (clip_io, Striper::file_to_extents, the is_write_op
virtuals, the completion aggregate) are modelled from the specification
and marked as such in their doc comments.
-/

namespace Librbd

/-- The four request variants of AioImageRequest (read, write, discard, flush). -/
inductive AioType where
  | read
  | write
  | discard
  | flush
deriving DecidableEq, Repr

/-- Modelled from the spec: the is_write_op virtual lives in
librbd/AioImageRequest.h, which is not under src/. Per spec section 4.6 the
write accounting covers the mutating operations, i.e. writes and discards. -/
def AioType.is_write_op : AioType → Bool
  | .write => true
  | .discard => true
  | _ => false

/-- The image watcher state consumed by the work queue: whether the
image_watcher pointer is non-null, the distributed lock capability surface
(is_lock_supported, is_lock_owner) and the aio-ops-pending flag that
flag_aio_ops_pending / clear_aio_ops_pending toggle. -/
structure Watcher where
  present : Bool
  lock_supported : Bool
  lock_owner : Bool
  aio_ops_pending : Bool
deriving DecidableEq, Repr

/-- Effect of ImageWatcher::flag_aio_ops_pending. -/
def Watcher.flag_pending (w : Watcher) : Watcher :=
  { w with aio_ops_pending := true }

/-- Effect of ImageWatcher::clear_aio_ops_pending. -/
def Watcher.clear_pending (w : Watcher) : Watcher :=
  { w with aio_ops_pending := false }

/-- AioImageRequestWQ::is_lock_required: false when the image watcher is
null, otherwise lock supported and not owned. -/
def is_lock_required (w : Watcher) : Bool :=
  if w.present = false then false
  else w.lock_supported && !w.lock_owner

/-- State of AioImageRequestWQ: the m_queued_writes and
m_in_progress_writes counters, the m_writes_suspended flag, the FIFO queue
contents (ThreadPool::PointerWQ), and the image watcher it drives. -/
structure WQState where
  queued_writes : Nat
  in_progress_writes : Nat
  writes_suspended : Bool
  items : List AioType
  watcher : Watcher
deriving DecidableEq, Repr

/-- Calls made on the image watcher during AioImageRequestWQ::queue. -/
structure QueueFx where
  flagged_pending : Bool
  requested_lock : Bool
deriving DecidableEq, Repr

/-- AioImageRequestWQ::queue(req, lock_required): bump m_queued_writes for
write ops, append the request; when this was the first write op, call
flag_aio_ops_pending, and also request_lock when lock_required. -/
def wq_queue (s : WQState) (k : AioType) (lock_required : Bool) :
    WQState × QueueFx :=
  let first_write_op := k.is_write_op && s.queued_writes == 0
  ({ s with
      queued_writes :=
        if k.is_write_op then s.queued_writes + 1 else s.queued_writes,
      items := s.items ++ [k],
      watcher :=
        if first_write_op then s.watcher.flag_pending else s.watcher },
   { flagged_pending := first_write_op,
     requested_lock := first_write_op && lock_required })

/-- AioImageRequestWQ::_void_dequeue: peek the front item; yield none on an
empty queue, or when the head is a write op while writes are suspended;
otherwise dequeue it, bumping m_in_progress_writes for write ops. -/
def void_dequeue (s : WQState) : Option AioType × WQState :=
  match s.items with
  | [] => (none, s)
  | k :: rest =>
    if k.is_write_op && s.writes_suspended then (none, s)
    else
      (some k,
       { s with
          items := rest,
          in_progress_writes :=
            if k.is_write_op then s.in_progress_writes + 1
            else s.in_progress_writes })

/-- Calls made on the image watcher during AioImageRequestWQ::process. -/
structure ProcessFx where
  cleared_pending : Bool
deriving DecidableEq, Repr

/-- AioImageRequestWQ::process(req), the counter bookkeeping after
req.send(): for write ops decrement m_queued_writes, calling
clear_aio_ops_pending when it reaches zero, and decrement
m_in_progress_writes (signalling any suspend_writes waiter). -/
def wq_process (s : WQState) (k : AioType) : WQState × ProcessFx :=
  if k.is_write_op then
    let qw := s.queued_writes - 1
    ({ s with
        queued_writes := qw,
        in_progress_writes := s.in_progress_writes - 1,
        watcher := if qw == 0 then s.watcher.clear_pending else s.watcher },
     { cleared_pending := qw == 0 })
  else (s, { cleared_pending := false })

/-- Where an aio_* submission goes: inline on the caller thread, or onto
the ordered queue (recording the lock_required argument of queue()). -/
inductive Dispatch where
  | inline
  | queued (lock_required : Bool)
deriving DecidableEq, Repr

/-- AioImageRequestWQ::aio_write dispatch decision. -/
def aio_write_dispatch (nb : Bool) (w : Watcher) : Dispatch :=
  let lock_required := is_lock_required w
  if nb || lock_required then .queued lock_required else .inline

/-- AioImageRequestWQ::aio_discard dispatch decision. -/
def aio_discard_dispatch (nb : Bool) (w : Watcher) : Dispatch :=
  let lock_required := is_lock_required w
  if nb || lock_required then .queued lock_required else .inline

/-- AioImageRequestWQ::aio_read dispatch decision: reads never consult the
image watcher and are always queued with lock_required = false. -/
def aio_read_dispatch (nb : Bool) : Dispatch :=
  if nb then .queued false else .inline

/-- AioImageRequestWQ::aio_flush dispatch decision; writes_empty() is
modelled from the spec (the method body is in the header, not under src/)
as m_queued_writes == 0. -/
def aio_flush_dispatch (nb : Bool) (queued_writes : Nat) : Dispatch :=
  if nb || !(queued_writes == 0) then .queued false else .inline

/-- Transition labels for the work queue: enqueue, dequeue (successful
_void_dequeue), process completion, entry to and return from
suspend_writes, resume_writes, and an external change of the distributed
lock state observed through the watcher. -/
inductive Label where
  | enq (k : AioType) (lock_required : Bool)
  | deq (k : AioType)
  | fin (k : AioType)
  | suspendBegin
  | suspendRet
  | resume
  | lockUpdate (pres sup own : Bool)
deriving DecidableEq, Repr

/-- Small-step transition relation of the work queue. The fin step carries
the assertion m_in_progress_writes > 0 of process() for write ops (a write
being processed was dequeued first). suspendRet is the return from
suspend_writes, which waits on the condition variable until
m_in_progress_writes == 0. -/
inductive Step : WQState → Label → WQState → Prop where
  | enq (s : WQState) (k : AioType) (lr : Bool) :
      Step s (.enq k lr) (wq_queue s k lr).1
  | deq (s : WQState) (k : AioType) (s2 : WQState)
      (h : void_dequeue s = (some k, s2)) :
      Step s (.deq k) s2
  | fin (s : WQState) (k : AioType)
      (h : k.is_write_op = true → 0 < s.in_progress_writes) :
      Step s (.fin k) (wq_process s k).1
  | suspendBegin (s : WQState) :
      Step s .suspendBegin { s with writes_suspended := true }
  | suspendRet (s : WQState)
      (h1 : s.writes_suspended = true)
      (h2 : s.in_progress_writes = 0) :
      Step s .suspendRet s
  | resume (s : WQState) :
      Step s .resume { s with writes_suspended := false }
  | lockUpdate (s : WQState) (pres sup own : Bool) :
      Step s (.lockUpdate pres sup own)
        { s with watcher :=
            { s.watcher with
                present := pres, lock_supported := sup, lock_owner := own } }

/-- Reflexive-transitive sequencing of steps, recording the label trace. -/
inductive Steps : WQState → List Label → WQState → Prop where
  | nil (s : WQState) : Steps s [] s
  | cons {s s1 s2 : WQState} {l : Label} {ls : List Label} :
      Step s l s1 → Steps s1 ls s2 → Steps s (l :: ls) s2

/-- Initial work-queue state for a fresh image context: zero counters,
empty queue, pending flag clear. -/
def wqInit (pres sup own : Bool) : WQState :=
  { queued_writes := 0, in_progress_writes := 0, writes_suspended := false,
    items := [],
    watcher :=
      { present := pres, lock_supported := sup, lock_owner := own,
        aio_ops_pending := false } }

/-- States reachable from an initial state by work-queue steps. -/
inductive Reachable : WQState → Prop where
  | init (pres sup own : Bool) : Reachable (wqInit pres sup own)
  | step {s s2 : WQState} {l : Label} :
      Reachable s → Step s l s2 → Reachable s2

/-- Number of write ops in a request list. -/
def writeCount (l : List AioType) : Nat :=
  (l.filter fun k => k.is_write_op).length

/-- Internal invariant of the work queue: m_queued_writes counts the write
ops still queued plus those in progress, and the aio-ops-pending flag is
clear exactly when m_queued_writes is zero. -/
def WQInv (s : WQState) : Prop :=
  s.queued_writes = writeCount s.items + s.in_progress_writes ∧
    (s.watcher.aio_ops_pending = false ↔ s.queued_writes = 0)

/-! ## Image request send paths (AioImageRequest.cc, src/unnamed/part_000) -/

/-- The head-snapshot sentinel CEPH_NOSNAP, i.e. (uint64_t)(-2). -/
def CEPH_NOSNAP : Nat := 2 ^ 64 - 2

/-- The errno for a read-only filesystem. -/
def EROFS : Int := 30

/-- The slice of the image context consulted by the write/discard send
paths: image size at the head revision, current snap id, read-only flag,
layout object size (layout.fl_object_size), presence of the journal and of
the object cacher, and the rbd_skip_partial_discard configuration flag. -/
structure ImageCtx where
  size : Nat
  snap_id : Nat
  read_only : Bool
  object_size : Nat
  journaling : Bool
  cache_present : Bool
  skip_partial_discard : Bool
deriving DecidableEq, Repr

/-- An object extent produced by the striper: backing object index, offset
and length within that object, and the offset of its slice in the source
buffer (the buffer_extents, contiguous for a single range). -/
structure ObjectExtent where
  objectno : Nat
  offset : Nat
  length : Nat
  buf_off : Nat
deriving DecidableEq, Repr

/-- The AioObjectRequest variants constructed by the send paths. The data
of an object write is the gathered byte list. -/
inductive ObjectOp where
  | write (objectno offset : Nat) (data : List Nat)
  | remove (objectno : Nat)
  | truncate (objectno offset : Nat)
  | zero (objectno offset length : Nat)
deriving DecidableEq, Repr

/-- Journal event payloads emitted by this layer. -/
inductive JournalEvent where
  | aioWrite (off len : Nat) (data : List Nat)
  | aioDiscard (off len : Nat)
  | aioFlush
deriving DecidableEq, Repr

/-- Calls made on the object cacher by the send paths. -/
inductive CacheOp where
  | write (objectno offset : Nat) (data : List Nat)
  | discardSet (extents : List ObjectExtent)
deriving DecidableEq, Repr

/-- Everything a send_request run produces: the errno passed to
AioCompletion::fail (if any), the object requests submitted directly to
the object store, the journal append_event calls (event entry paired with
the stashed object requests handed over), the cache calls, and the length
reported to update_stats. -/
structure SendOutcome where
  failed : Option Int
  submitted : List ObjectOp
  appended : List (JournalEvent × List ObjectOp)
  cache_ops : List CacheOp
  stats_len : Nat
deriving DecidableEq, Repr

/-- Modelled from the spec: clip_io (librbd/internal.cc, not under src/).
Spec section 4.5: clip against volume length, clipping the length to
max(0, volume_length - offset); returns the clipped length. -/
def clipLength (ctx : ImageCtx) (off len : Nat) : Nat :=
  min len (ctx.size - off)

/-- Modelled from the spec: Striper::file_to_extents (external striping
library, not under src/) for the default layout stripe_unit = object_size
and stripe_count = 1: the byte range is split at object-size boundaries,
each piece recording its object index, intra-object offset and the running
source-buffer offset. Structural recursion on a fuel bounded by len (each
emitted piece is at least one byte). -/
def fileToExtentsAux : Nat → Nat → Nat → Nat → Nat → List ObjectExtent
  | 0, _, _, _, _ => []
  | fuel + 1, S, off, len, bufOff =>
    if S = 0 ∨ len = 0 then []
    else
      let chunk := min (S - off % S) len
      { objectno := off / S, offset := off % S, length := chunk,
        buf_off := bufOff } ::
        fileToExtentsAux fuel S (off + chunk) (len - chunk) (bufOff + chunk)

/-- The extent mapping for a byte range, starting at buffer offset 0. -/
def file_to_extents (S off len : Nat) : List ObjectExtent :=
  fileToExtentsAux len S off len 0

/-- The object extents a write or discard send path maps its clipped range
to: empty when the clipped length is zero, otherwise the striper output
(AbstractAioImageWrite::send_request, the clip_len > 0 guard). -/
def request_extents (ctx : ImageCtx) (off len : Nat) : List ObjectExtent :=
  let clip_len := clipLength ctx off len
  if 0 < clip_len then file_to_extents ctx.object_size off clip_len else []

/-- AioImageWrite::assemble_extent: gather the buffer slices of one object
extent from the source buffer. -/
def assemble_extent (buf : List Nat) (e : ObjectExtent) : List Nat :=
  (buf.drop e.buf_off).take e.length

namespace AioImageWrite

/-- AioImageWrite::send_object_request: null when an object cacher is
present (the cache owns dispatch), otherwise an AioObjectWrite carrying
the gathered extent data. -/
def send_object_request (ctx : ImageCtx) (buf : List Nat)
    (e : ObjectExtent) : Option ObjectOp :=
  if ctx.cache_present then none
  else some (.write e.objectno e.offset (assemble_extent buf e))

end AioImageWrite

namespace AioImageDiscard

/-- AioImageDiscard::send_object_request: AioObjectRemove when the extent
length equals the object size, AioObjectTruncate when the extent reaches
the object end, otherwise AioObjectZero unless rbd_skip_partial_discard is
set, in which case no request is constructed. -/
def send_object_request (ctx : ImageCtx) (e : ObjectExtent) :
    Option ObjectOp :=
  if e.length = ctx.object_size then
    some (.remove e.objectno)
  else if e.offset + e.length = ctx.object_size then
    some (.truncate e.objectno e.offset)
  else if ctx.skip_partial_discard then
    none
  else
    some (.zero e.objectno e.offset e.length)

end AioImageDiscard

/-- AbstractAioImageWrite::send_object_requests: construct the per-extent
children; a constructed child is stashed for the journal when journaling,
and submitted to the object store immediately otherwise. Returns the pair
(submitted, stashed) in queue order. -/
def send_object_requests (child : ObjectExtent → Option ObjectOp) :
    List ObjectExtent → Bool → List ObjectOp × List ObjectOp
  | [], _ => ([], [])
  | e :: rest, journaling =>
    let tail := send_object_requests child rest journaling
    match child e with
    | none => tail
    | some r =>
      if journaling then (tail.1, r :: tail.2) else (r :: tail.1, tail.2)

namespace AioImageWrite

/-- AbstractAioImageWrite::send_request specialised to AioImageWrite: fail
with -EROFS when the snap id is not the head sentinel or the volume is
read-only; clip the length; map to object extents; construct children
(stashed when journaling, submitted otherwise); append the journal event
built by AioImageWrite::append_journal_event from the UNCLIPPED m_off and
m_len and the first m_len bytes of the source buffer; send the cache
writes when an object cacher is present; update stats with clip_len. -/
def send_request (ctx : ImageCtx) (off len : Nat) (buf : List Nat) :
    SendOutcome :=
  if ctx.snap_id ≠ CEPH_NOSNAP ∨ ctx.read_only = true then
    { failed := some (-EROFS), submitted := [], appended := [],
      cache_ops := [], stats_len := 0 }
  else
    let clip_len := clipLength ctx off len
    let object_extents := request_extents ctx off len
    let journaling := ctx.journaling
    let reqs :=
      send_object_requests (send_object_request ctx buf) object_extents
        journaling
    { failed := none,
      submitted := reqs.1,
      appended :=
        if journaling then
          [(JournalEvent.aioWrite off len (buf.take len), reqs.2)]
        else [],
      cache_ops :=
        if ctx.cache_present then
          object_extents.map fun e =>
            CacheOp.write e.objectno e.offset (assemble_extent buf e)
        else [],
      stats_len := clip_len }

end AioImageWrite

namespace AioImageDiscard

/-- AbstractAioImageWrite::send_request specialised to AioImageDiscard:
same flow as the write path, with the discard child constructor, the
AioDiscardEvent journal entry (again from the unclipped m_off, m_len) and
the cache discard_set call. -/
def send_request (ctx : ImageCtx) (off len : Nat) : SendOutcome :=
  if ctx.snap_id ≠ CEPH_NOSNAP ∨ ctx.read_only = true then
    { failed := some (-EROFS), submitted := [], appended := [],
      cache_ops := [], stats_len := 0 }
  else
    let clip_len := clipLength ctx off len
    let object_extents := request_extents ctx off len
    let journaling := ctx.journaling
    let reqs :=
      send_object_requests (send_object_request ctx) object_extents
        journaling
    { failed := none,
      submitted := reqs.1,
      appended :=
        if journaling then [(JournalEvent.aioDiscard off len, reqs.2)]
        else [],
      cache_ops :=
        if ctx.cache_present then [CacheOp.discardSet object_extents]
        else [],
      stats_len := clip_len }

end AioImageDiscard

namespace AioImageRequestWQ

/-- AioImageRequestWQ::write, the synchronous wrapper: clip_io first
(under the snap lock), run the aio write to completion, and return the
clipped length on success. The condition wait returns the final result of
the completion aggregate, modelled from the spec (section 4.3, the
aggregate code is not under src/) as the errno passed to fail(), or 0 when
no failure occurred. -/
def write (ctx : ImageCtx) (off len : Nat) (buf : List Nat) :
    Except Int Nat :=
  let clipped := clipLength ctx off len
  match (AioImageWrite.send_request ctx off clipped buf).failed with
  | some e => .error e
  | none => .ok clipped

/-- AioImageRequestWQ::discard, the synchronous wrapper, analogous to
AioImageRequestWQ::write. -/
def discard (ctx : ImageCtx) (off len : Nat) : Except Int Nat :=
  let clipped := clipLength ctx off len
  match (AioImageDiscard.send_request ctx off clipped).failed with
  | some e => .error e
  | none => .ok clipped

end AioImageRequestWQ

/-! ## Proofs: work-queue counters and pending flag -/
lemma writeCount_append (l : List AioType) (k : AioType) :
    writeCount (l ++ [k]) = writeCount l + (if k.is_write_op then 1 else 0) := by
  cases h : k.is_write_op <;> simp [writeCount, List.filter_append, h]

lemma writeCount_cons (k : AioType) (l : List AioType) :
    writeCount (k :: l) = (if k.is_write_op then 1 else 0) + writeCount l := by
  cases h : k.is_write_op <;> simp [writeCount, h, Nat.add_comm]

lemma step_preserves_inv {s s2 : WQState} {l : Label}
    (hs : Step s l s2) (h : WQInv s) : WQInv s2 := by
  obtain ⟨hc, hp⟩ := h
  cases hs with
  | enq k lr =>
    cases hw : k.is_write_op with
    | false =>
      refine ⟨?_, ?_⟩
      · simp [wq_queue, hw, writeCount_append, hc]
      · simp only [wq_queue, hw, Bool.false_and]
        simpa using hp
    | true =>
      by_cases h0 : s.queued_writes = 0
      · refine ⟨?_, ?_⟩
        · simp [wq_queue, hw, writeCount_append, hc]
          omega
        · simp [wq_queue, hw, h0, Watcher.flag_pending]
      · refine ⟨?_, ?_⟩
        · simp [wq_queue, hw, writeCount_append, hc]
          omega
        · have hq : (s.queued_writes == 0) = false := by simp [h0]
          have hpend : s.watcher.aio_ops_pending = true := by
            rcases Bool.eq_false_or_eq_true s.watcher.aio_ops_pending with hb | hb
            · exact hb
            · exact absurd (hp.mp hb) h0
          simp [wq_queue, hw, hq, hpend]
  | deq k s3 h =>
    cases hi : s.items with
    | nil => simp [void_dequeue, hi] at h
    | cons hd tl =>
      by_cases hb : (hd.is_write_op && s.writes_suspended) = true
      · simp [void_dequeue, hi, hb] at h
      · simp only [void_dequeue, hi] at h
        rw [if_neg hb] at h
        have h1 : hd = k := Option.some.inj (congrArg Prod.fst h)
        have h2 := congrArg Prod.snd h
        simp only at h2
        subst h2
        subst h1
        rw [hi, writeCount_cons] at hc
        cases hw : hd.is_write_op with
        | false =>
          refine ⟨?_, ?_⟩
          · simp [hw] at hc ⊢
            omega
          · simpa using hp
        | true =>
          refine ⟨?_, ?_⟩
          · simp [hw] at hc ⊢
            omega
          · simpa using hp
  | fin k hpre =>
    cases hw : k.is_write_op with
    | false =>
      simpa [wq_process, hw] using And.intro hc hp
    | true =>
      have hip : 0 < s.in_progress_writes := hpre hw
      by_cases hq : s.queued_writes - 1 = 0
      · refine ⟨?_, ?_⟩
        · simp [wq_process, hw]
          omega
        · simp [wq_process, hw, hq, Watcher.clear_pending]
      · have hq2 : (s.queued_writes - 1 == 0) = false := by simp [hq]
        have hqnz : s.queued_writes ≠ 0 := by omega
        have hpend : s.watcher.aio_ops_pending = true := by
          rcases Bool.eq_false_or_eq_true s.watcher.aio_ops_pending with hb2 | hb2
          · exact hb2
          · exact absurd (hp.mp hb2) hqnz
        refine ⟨?_, ?_⟩
        · simp [wq_process, hw]
          omega
        · simp [wq_process, hw, hq2, hpend, hq]
  | suspendBegin => exact ⟨hc, hp⟩
  | suspendRet h1 h2 => exact ⟨hc, hp⟩
  | resume => exact ⟨hc, hp⟩
  | lockUpdate pres sup own => exact ⟨hc, hp⟩

lemma reachable_inv {s : WQState} (h : Reachable s) : WQInv s := by
  induction h with
  | init pres sup own => exact ⟨rfl, by simp [wqInit]⟩
  | step hr hs ih => exact step_preserves_inv hs ih

/-! ## Proofs: write suspension -/

lemma step_suspended {s s2 : WQState} {l : Label}
    (hs : Step s l s2) (hsu : s.writes_suspended = true) (hl : l ≠ .resume) :
    s2.writes_suspended = true ∧
      ∀ k, l = .deq k → k.is_write_op = false := by
  cases hs with
  | enq k lr =>
    refine ⟨by simp [wq_queue, hsu], ?_⟩
    intro k2 hk
    cases hk
  | deq k s3 h =>
    cases hi : s.items with
    | nil => simp [void_dequeue, hi] at h
    | cons hd tl =>
      by_cases hb : (hd.is_write_op && s.writes_suspended) = true
      · simp [void_dequeue, hi, hb] at h
      · have hwn : hd.is_write_op = false := by
          rcases Bool.eq_false_or_eq_true hd.is_write_op with hb2 | hb2
          · exact absurd (by simp [hb2, hsu]) hb
          · exact hb2
        simp only [void_dequeue, hi] at h
        rw [if_neg hb] at h
        have h1 : hd = k := Option.some.inj (congrArg Prod.fst h)
        have h2 := congrArg Prod.snd h
        simp only at h2
        subst h2
        refine ⟨by simpa using hsu, ?_⟩
        intro k2 hk
        cases hk
        exact h1 ▸ hwn
  | fin k hpre =>
    refine ⟨?_, ?_⟩
    · cases hw : k.is_write_op <;> simp [wq_process, hw, hsu]
    · intro k2 hk
      cases hk
  | suspendBegin =>
    exact ⟨by simp, fun k2 hk => by cases hk⟩
  | suspendRet h1 h2 =>
    exact ⟨hsu, fun k2 hk => by cases hk⟩
  | resume => exact absurd rfl hl
  | lockUpdate pres sup own =>
    exact ⟨by simpa using hsu, fun k2 hk => by cases hk⟩

lemma steps_suspended {s s2 : WQState} {ls : List Label} (hs : Steps s ls s2) :
    s.writes_suspended = true → Label.resume ∉ ls →
    s2.writes_suspended = true ∧
      ∀ k, Label.deq k ∈ ls → k.is_write_op = false := by
  induction hs with
  | nil s =>
    intro hsu _
    exact ⟨hsu, fun k h => absurd h (List.not_mem_nil _)⟩
  | cons st rest ih =>
    intro hsu hr
    have hl : _ ≠ Label.resume :=
      fun he => hr (List.mem_cons.mpr (Or.inl he.symm))
    obtain ⟨h1, h2⟩ := step_suspended st hsu hl
    have hr2 : Label.resume ∉ _ := fun hm => hr (List.mem_cons_of_mem _ hm)
    obtain ⟨h3, h4⟩ := ih h1 hr2
    refine ⟨h3, ?_⟩
    intro k hm
    rcases List.mem_cons.mp hm with he | hm2
    · exact h2 k he.symm
    · exact h4 k hm2

/-! ## Proofs: send-path helpers -/

lemma send_object_requests_eq (child : ObjectExtent → Option ObjectOp)
    (extents : List ObjectExtent) (journaling : Bool) :
    send_object_requests child extents journaling =
      if journaling then ([], extents.filterMap child)
      else (extents.filterMap child, []) := by
  induction extents with
  | nil => cases journaling <;> simp [send_object_requests]
  | cons e rest ih =>
    cases hc : child e <;> cases journaling <;>
      simp [send_object_requests, List.filterMap_cons, hc, ih]

lemma extents_length_sum (fuel S off len bufOff : Nat)
    (hf : len ≤ fuel) (hS : 0 < S) :
    ((fileToExtentsAux fuel S off len bufOff).map
        ObjectExtent.length).sum = len := by
  induction fuel generalizing off len bufOff with
  | zero =>
    have : len = 0 := Nat.le_zero.mp hf
    simp [fileToExtentsAux, this]
  | succ fuel ih =>
    by_cases h0 : len = 0
    · simp [fileToExtentsAux, h0]
    · have hSne : ¬(S = 0 ∨ len = 0) := by omega
      have hchunk1 : 1 ≤ min (S - off % S) len := by
        have hm : off % S < S := Nat.mod_lt _ hS
        omega
      have hchunkle : min (S - off % S) len ≤ len := Nat.min_le_right _ _
      rw [fileToExtentsAux, if_neg hSne]
      simp only [List.map_cons, List.sum_cons]
      rw [ih _ (len - min (S - off % S) len) _ (by omega)]
      omega

/-! ## Claims on dispatch and lock acquisition -/

/-- Work-queue state reached after enqueueing one write while the
distributed lock is supported but not owned: m_queued_writes = 1. -/
def c1State : WQState := (wq_queue (wqInit true true false) .write true).1

/-- Claim C1, counterexample: in the reachable state c1State the lock is
still supported and unowned, yet enqueueing a further write does NOT
invoke request_lock, because queue() only requests the lock for the first
queued write op. -/
theorem C1_counterexample :
    Reachable c1State ∧
    is_lock_required c1State.watcher = true ∧
    AioType.is_write_op .write = true ∧
    (wq_queue c1State .write
        (is_lock_required c1State.watcher)).2.requested_lock = false := by
  refine ⟨?_, by decide, by decide, by decide⟩
  exact Reachable.step (Reachable.init true true false)
    (Step.enq (wqInit true true false) .write true)

/-- Claim C1 (amended): at enqueue, request_lock is invoked exactly when
the request is a write op, it is the first queued write op (the 0 to 1
transition of queued_writes) and the lock_required argument is true; the
aio_write and aio_discard paths pass lock_required = is_lock_required
(lock supported but not owned) when they queue. -/
theorem C1_request_lock_first_write_only :
    (∀ (s : WQState) (k : AioType) (lr : Bool),
      (wq_queue s k lr).2.requested_lock =
        ((k.is_write_op && (s.queued_writes == 0)) && lr)) ∧
    (∀ (nb : Bool) (w : Watcher),
      aio_write_dispatch nb w = .inline ∨
        aio_write_dispatch nb w = .queued (is_lock_required w)) ∧
    (∀ (nb : Bool) (w : Watcher),
      aio_discard_dispatch nb w = .inline ∨
        aio_discard_dispatch nb w = .queued (is_lock_required w)) := by
  refine ⟨fun s k lr => rfl, ?_, ?_⟩
  · intro nb w
    by_cases h : (nb || is_lock_required w) = true
    · exact Or.inr (by simp [aio_write_dispatch, h])
    · exact Or.inl (by simp [aio_write_dispatch, h])
  · intro nb w
    by_cases h : (nb || is_lock_required w) = true
    · exact Or.inr (by simp [aio_discard_dispatch, h])
    · exact Or.inl (by simp [aio_discard_dispatch, h])

/-- Claim C4: an aio submission runs inline exactly when non_blocking_aio
is false and, for writes and discards, the distributed lock is owned or
not required (no watcher, lock unsupported, or already owner) and, for
flush, the writes queue is empty; in every other case it is queued. -/
theorem C4_inline_iff :
    ∀ (nb : Bool) (w : Watcher) (queued_writes : Nat),
      (aio_write_dispatch nb w = .inline ↔
        (nb = false ∧ is_lock_required w = false)) ∧
      (aio_discard_dispatch nb w = .inline ↔
        (nb = false ∧ is_lock_required w = false)) ∧
      (aio_read_dispatch nb = .inline ↔ nb = false) ∧
      (aio_flush_dispatch nb queued_writes = .inline ↔
        (nb = false ∧ queued_writes = 0)) ∧
      (is_lock_required w = false ↔
        (w.present = false ∨ w.lock_supported = false ∨
          w.lock_owner = true)) ∧
      (∀ d : Dispatch, d = .inline ∨ ∃ lr, d = .queued lr) := by
  intro nb w queued_writes
  obtain ⟨p, ls, lo, ap⟩ := w
  refine ⟨?_, ?_, ?_, ?_, ?_, ?_⟩
  · cases hlr : is_lock_required ⟨p, ls, lo, ap⟩ <;> cases nb <;>
      simp [aio_write_dispatch, hlr]
  · cases hlr : is_lock_required ⟨p, ls, lo, ap⟩ <;> cases nb <;>
      simp [aio_discard_dispatch, hlr]
  · cases nb <;> simp [aio_read_dispatch]
  · by_cases hq : queued_writes = 0 <;> cases nb <;>
      simp [aio_flush_dispatch, hq]
  · cases p <;> cases ls <;> cases lo <;> simp [is_lock_required]
  · intro d
    cases d with
    | inline => exact Or.inl rfl
    | queued lr => exact Or.inr ⟨lr, rfl⟩

/-- Claim C10: a read is dispatched inline or queued based solely on
non_blocking_aio, is always queued with lock_required = false, and a read
enqueue never flags aio ops pending, never requests the lock, and leaves
the watcher and queued_writes untouched. -/
theorem C10_read_ignores_lock :
    (∀ nb : Bool,
      aio_read_dispatch nb = .inline ∨
        aio_read_dispatch nb = .queued false) ∧
    aio_read_dispatch false = .inline ∧
    aio_read_dispatch true = .queued false ∧
    (∀ (s : WQState) (lr : Bool),
      (wq_queue s .read lr).2.flagged_pending = false ∧
      (wq_queue s .read lr).2.requested_lock = false ∧
      (wq_queue s .read lr).1.watcher = s.watcher ∧
      (wq_queue s .read lr).1.queued_writes = s.queued_writes) := by
  refine ⟨?_, rfl, rfl, ?_⟩
  · intro nb
    cases nb
    · exact Or.inl rfl
    · exact Or.inr rfl
  · intro s lr
    exact ⟨rfl, rfl, rfl, rfl⟩

/-! ## Claims on write accounting and suspension -/

/-- Claim C2: at every reachable work-queue state, queued_writes = 0 holds
iff the aio-ops-pending flag on the image watcher is clear; moreover
flag_aio_ops_pending is called at enqueue exactly on the 0 to 1 transition
of queued_writes by a write op, and clear_aio_ops_pending is called at
process exactly when a write op returns queued_writes to 0. -/
theorem C2_pending_flag :
    (∀ s : WQState, Reachable s →
      (s.queued_writes = 0 ↔ s.watcher.aio_ops_pending = false)) ∧
    (∀ (s : WQState) (k : AioType) (lr : Bool),
      (wq_queue s k lr).2.flagged_pending =
        (k.is_write_op && (s.queued_writes == 0))) ∧
    (∀ (s : WQState) (k : AioType), 0 < s.queued_writes →
      (wq_process s k).2.cleared_pending =
        (k.is_write_op && (s.queued_writes == 1))) := by
  refine ⟨?_, fun s k lr => rfl, ?_⟩
  · intro s hr
    exact (reachable_inv hr).2.symm
  · intro s k hq
    obtain ⟨qw, ip, ws, it, w⟩ := s
    cases hw : k.is_write_op
    · simp [wq_process, hw]
    · rcases qw with _ | n
      · exact absurd hq (by simp)
      · simp only [wq_process, hw, if_true]
        simp

/-- Reachable witness state for C2: one write enqueued. -/
theorem C2_witness :
    ((wqInit true true false).queued_writes = 0 ↔
      (wqInit true true false).watcher.aio_ops_pending = false) ∧
    (wq_process (wq_queue (wqInit true true false) .write true).1
        .write).2.cleared_pending =
      (AioType.is_write_op .write &&
        ((wq_queue (wqInit true true false) .write true).1.queued_writes
          == 1)) :=
  ⟨C2_pending_flag.1 _ (Reachable.init true true false),
   C2_pending_flag.2.2 _ .write (by decide)⟩

/-- A suspended work-queue state with a write at the head of the queue. -/
def c3WriteState : WQState :=
  { queued_writes := 1, in_progress_writes := 0, writes_suspended := true,
    items := [.write],
    watcher :=
      { present := true, lock_supported := true, lock_owner := false,
        aio_ops_pending := true } }

/-- A suspended work-queue state with a read at the head of the queue. -/
def c3ReadState : WQState :=
  { queued_writes := 0, in_progress_writes := 0, writes_suspended := true,
    items := [.read],
    watcher :=
      { present := true, lock_supported := true, lock_owner := false,
        aio_ops_pending := false } }

/-- Claim C3: from any suspended state, along any step sequence that does
not contain resume_writes, the queue stays suspended and no write op is
dequeued (no write goes from queued to in progress); _void_dequeue yields
none when the head is a write op (the write stays at the head, the state
is unchanged) but dequeues a head read; and the return from
suspend_writes happens only with in_progress_writes = 0 and the suspend
flag set. -/
theorem C3_suspension :
    (∀ (s s2 : WQState) (ls : List Label),
      s.writes_suspended = true → Steps s ls s2 → Label.resume ∉ ls →
      s2.writes_suspended = true ∧
        ∀ k, Label.deq k ∈ ls → k.is_write_op = false) ∧
    (∀ (s : WQState) (k : AioType) (rest : List AioType),
      s.writes_suspended = true → s.items = k :: rest →
      k.is_write_op = true → void_dequeue s = (none, s)) ∧
    (∀ (s : WQState) (k : AioType) (rest : List AioType),
      s.writes_suspended = true → s.items = k :: rest →
      k.is_write_op = false → (void_dequeue s).1 = some k) ∧
    (∀ (s s2 : WQState), Step s .suspendRet s2 →
      s2.in_progress_writes = 0 ∧ s2.writes_suspended = true) := by
  refine ⟨?_, ?_, ?_, ?_⟩
  · intro s s2 ls hsu hs hr
    exact steps_suspended hs hsu hr
  · intro s k rest hsu hi hw
    simp [void_dequeue, hi, hw, hsu]
  · intro s k rest hsu hi hw
    simp [void_dequeue, hi, hw]
  · intro s s2 hstep
    cases hstep with
    | suspendRet h1 h2 => exact ⟨h2, h1⟩

/-- Concrete instances of the C3 conjuncts: a suspended state keeps a head
write queued, dequeues a head read, and the suspend return sees zero
in-progress writes. -/
theorem C3_witness :
    (c3WriteState.writes_suspended = true ∧
      ∀ k, Label.deq k ∈ ([] : List Label) → k.is_write_op = false) ∧
    void_dequeue c3WriteState = (none, c3WriteState) ∧
    (void_dequeue c3ReadState).1 = some .read ∧
    (c3WriteState.in_progress_writes = 0 ∧
      c3WriteState.writes_suspended = true) :=
  ⟨C3_suspension.1 c3WriteState c3WriteState [] rfl (Steps.nil c3WriteState)
      (by decide),
   C3_suspension.2.1 c3WriteState .write [] rfl rfl rfl,
   C3_suspension.2.2.1 c3ReadState .read [] rfl rfl rfl,
   C3_suspension.2.2.2 c3WriteState c3WriteState
     (Step.suspendRet c3WriteState rfl rfl)⟩

/-! ## Claims on the write and discard send paths -/

/-- Claim C5: a write or discard dispatched with the snap id not equal to
the head sentinel, or with the volume read-only, fails the completion with
-EROFS and produces no object-store requests, no journal events and no
cache requests. -/
theorem C5_erofs :
    ∀ (ctx : ImageCtx) (off len : Nat) (buf : List Nat),
      (ctx.snap_id ≠ CEPH_NOSNAP ∨ ctx.read_only = true) →
      AioImageWrite.send_request ctx off len buf =
        { failed := some (-EROFS), submitted := [], appended := [],
          cache_ops := [], stats_len := 0 } ∧
      AioImageDiscard.send_request ctx off len =
        { failed := some (-EROFS), submitted := [], appended := [],
          cache_ops := [], stats_len := 0 } := by
  intro ctx off len buf h
  constructor
  · simp only [AioImageWrite.send_request]
    rw [if_pos h]
  · simp only [AioImageDiscard.send_request]
    rw [if_pos h]

/-- A read-only image context. -/
def ctxRO : ImageCtx :=
  { size := 4096, snap_id := CEPH_NOSNAP, read_only := true,
    object_size := 4096, journaling := false, cache_present := false,
    skip_partial_discard := false }

/-- Concrete instance of C5 on a read-only volume. -/
theorem C5_witness :
    AioImageWrite.send_request ctxRO 0 10 [1, 2] =
      { failed := some (-EROFS), submitted := [], appended := [],
        cache_ops := [], stats_len := 0 } ∧
    AioImageDiscard.send_request ctxRO 0 10 =
      { failed := some (-EROFS), submitted := [], appended := [],
        cache_ops := [], stats_len := 0 } :=
  C5_erofs ctxRO 0 10 [1, 2] (Or.inr rfl)

/-- Image context with skip-partial-discard enabled, no journal, no cache. -/
def ctxSkip : ImageCtx :=
  { size := 4096, snap_id := CEPH_NOSNAP, read_only := false,
    object_size := 4096, journaling := false, cache_present := false,
    skip_partial_discard := true }

/-- Claim C6: the discard child is ObjectRemove when the extent length
equals the object size, ObjectTruncate when the extent end equals the
object size, ObjectZero otherwise; with skip_partial_discard set the
interior case constructs nothing, and the spec scenario
discard(100, 50) on a 4096-byte object yields no object-store, journal or
cache operation while the synchronous discard still returns 50. -/
theorem C6_discard_geometry :
    (∀ (ctx : ImageCtx) (e : ObjectExtent),
      (e.length = ctx.object_size →
        AioImageDiscard.send_object_request ctx e =
          some (.remove e.objectno)) ∧
      (e.length ≠ ctx.object_size → e.offset + e.length = ctx.object_size →
        AioImageDiscard.send_object_request ctx e =
          some (.truncate e.objectno e.offset)) ∧
      (e.length ≠ ctx.object_size → e.offset + e.length ≠ ctx.object_size →
        ctx.skip_partial_discard = true →
        AioImageDiscard.send_object_request ctx e = none) ∧
      (e.length ≠ ctx.object_size → e.offset + e.length ≠ ctx.object_size →
        ctx.skip_partial_discard = false →
        AioImageDiscard.send_object_request ctx e =
          some (.zero e.objectno e.offset e.length))) ∧
    (AioImageDiscard.send_request ctxSkip 100 50).submitted = [] ∧
    (AioImageDiscard.send_request ctxSkip 100 50).appended = [] ∧
    (AioImageDiscard.send_request ctxSkip 100 50).cache_ops = [] ∧
    (AioImageDiscard.send_request ctxSkip 100 50).failed = none ∧
    AioImageRequestWQ.discard ctxSkip 100 50 = .ok 50 := by
  refine ⟨?_, by decide, by decide, by decide, by decide, rfl⟩
  intro ctx e
  refine ⟨?_, ?_, ?_, ?_⟩
  · intro h1
    simp [AioImageDiscard.send_object_request, h1]
  · intro h1 h2
    simp [AioImageDiscard.send_object_request, h1, h2]
  · intro h1 h2 h3
    simp [AioImageDiscard.send_object_request, h1, h2, h3]
  · intro h1 h2 h3
    simp [AioImageDiscard.send_object_request, h1, h2, h3]

/-- Concrete instances of the C6 geometry cases: full-object extent,
end-of-object extent, interior extent with and without skip. -/
theorem C6_witness :
    AioImageDiscard.send_object_request ctxSkip
      { objectno := 3, offset := 0, length := 4096, buf_off := 0 } =
        some (.remove 3) ∧
    AioImageDiscard.send_object_request ctxSkip
      { objectno := 3, offset := 4000, length := 96, buf_off := 0 } =
        some (.truncate 3 4000) ∧
    AioImageDiscard.send_object_request ctxSkip
      { objectno := 3, offset := 100, length := 50, buf_off := 0 } = none ∧
    AioImageDiscard.send_object_request ctxRO
      { objectno := 3, offset := 100, length := 50, buf_off := 0 } =
        some (.zero 3 100 50) :=
  ⟨((C6_discard_geometry.1 ctxSkip _).1) rfl,
   ((C6_discard_geometry.1 ctxSkip _).2.1) (by decide) rfl,
   ((C6_discard_geometry.1 ctxSkip _).2.2.1) (by decide) (by decide) rfl,
   ((C6_discard_geometry.1 ctxRO _).2.2.2) (by decide) (by decide) rfl⟩

/-- Plain image context: head revision, writable, 4096-byte objects,
volume length 4096, no journal, no cache. -/
def ctxPlain : ImageCtx :=
  { size := 4096, snap_id := CEPH_NOSNAP, read_only := false,
    object_size := 4096, journaling := false, cache_present := false,
    skip_partial_discard := false }

/-- A 200-byte source buffer. -/
def buf200 : List Nat := List.range 200

/-- Claim C7: on a 4096-byte volume, a synchronous write of 200 bytes at
offset 4000 returns 96 (the clipped length) and exactly one object write
of 96 bytes is submitted to the object store. -/
theorem C7_clipped_write :
    AioImageRequestWQ.write ctxPlain 4000 200 buf200 = .ok 96 ∧
    (AioImageWrite.send_request ctxPlain 4000
        (clipLength ctxPlain 4000 200) buf200).submitted =
      [.write 0 4000 (buf200.take 96)] ∧
    (buf200.take 96).length = 96 ∧
    (AioImageWrite.send_request ctxPlain 4000
        (clipLength ctxPlain 4000 200) buf200).failed = none :=
  ⟨rfl, by decide, by decide, by decide⟩

/-! ## Claims on journaling of writes -/

/-- Claim C8: for a valid write or discard, when a journal handle is
present every constructed object-request child is stashed and handed to
append_event (none is submitted directly), and when no journal handle is
present every constructed child is submitted to the object store
immediately, in extent order. -/
theorem C8_journal_stash :
    ∀ (ctx : ImageCtx) (off len : Nat) (buf : List Nat),
      ctx.snap_id = CEPH_NOSNAP → ctx.read_only = false →
      ((ctx.journaling = true →
        (AioImageWrite.send_request ctx off len buf).submitted = [] ∧
        (AioImageWrite.send_request ctx off len buf).appended =
          [(JournalEvent.aioWrite off len (buf.take len),
            (request_extents ctx off len).filterMap
              (AioImageWrite.send_object_request ctx buf))] ∧
        (AioImageDiscard.send_request ctx off len).submitted = [] ∧
        (AioImageDiscard.send_request ctx off len).appended =
          [(JournalEvent.aioDiscard off len,
            (request_extents ctx off len).filterMap
              (AioImageDiscard.send_object_request ctx))]) ∧
      (ctx.journaling = false →
        (AioImageWrite.send_request ctx off len buf).appended = [] ∧
        (AioImageWrite.send_request ctx off len buf).submitted =
          (request_extents ctx off len).filterMap
            (AioImageWrite.send_object_request ctx buf) ∧
        (AioImageDiscard.send_request ctx off len).appended = [] ∧
        (AioImageDiscard.send_request ctx off len).submitted =
          (request_extents ctx off len).filterMap
            (AioImageDiscard.send_object_request ctx))) := by
  intro ctx off len buf h1 h2
  have hno : ¬(ctx.snap_id ≠ CEPH_NOSNAP ∨ ctx.read_only = true) := by
    simp [h1, h2]
  constructor
  · intro hj
    refine ⟨?_, ?_, ?_, ?_⟩ <;>
      · simp only [AioImageWrite.send_request, AioImageDiscard.send_request]
        rw [if_neg hno]
        simp [send_object_requests_eq, hj]
  · intro hj
    refine ⟨?_, ?_, ?_, ?_⟩ <;>
      · simp only [AioImageWrite.send_request, AioImageDiscard.send_request]
        rw [if_neg hno]
        simp [send_object_requests_eq, hj]

/-- Journaling image context for the C8 and C9 witnesses. -/
def ctxJournal : ImageCtx :=
  { size := 4096, snap_id := CEPH_NOSNAP, read_only := false,
    object_size := 4096, journaling := true, cache_present := false,
    skip_partial_discard := false }

/-- Concrete instance of C8: with the journal open, a write of 100 bytes
at offset 0 submits nothing directly and stashes its one child into the
append_event call. -/
theorem C8_witness :
    (AioImageWrite.send_request ctxJournal 0 100 buf200).submitted = [] ∧
    (AioImageWrite.send_request ctxJournal 0 100 buf200).appended =
      [(JournalEvent.aioWrite 0 100 (buf200.take 100),
        (request_extents ctxJournal 0 100).filterMap
          (AioImageWrite.send_object_request ctxJournal buf200))] :=
  ⟨((C8_journal_stash ctxJournal 0 100 buf200 rfl rfl).1 rfl).1,
   ((C8_journal_stash ctxJournal 0 100 buf200 rfl rfl).1 rfl).2.1⟩

/-- Claim C9: for a journaled write whose range extends past the volume
length, the journal records the AioWriteEvent with the original unclipped
offset and length and the first len bytes of the source buffer, while the
object extents mapped for the same operation cover only the clipped
length, which is strictly smaller. -/
theorem C9_journal_unclipped :
    ∀ (ctx : ImageCtx) (off len : Nat) (buf : List Nat),
      ctx.snap_id = CEPH_NOSNAP → ctx.read_only = false →
      ctx.journaling = true → 0 < len → ctx.size < off + len →
      0 < ctx.object_size →
      (AioImageWrite.send_request ctx off len buf).appended.map Prod.fst =
        [JournalEvent.aioWrite off len (buf.take len)] ∧
      (AioImageWrite.send_request ctx off len buf).stats_len =
        clipLength ctx off len ∧
      clipLength ctx off len < len ∧
      ((request_extents ctx off len).map ObjectExtent.length).sum =
        clipLength ctx off len := by
  intro ctx off len buf h1 h2 hj hlen hover hS
  have hno : ¬(ctx.snap_id ≠ CEPH_NOSNAP ∨ ctx.read_only = true) := by
    simp [h1, h2]
  refine ⟨?_, ?_, ?_, ?_⟩
  · simp only [AioImageWrite.send_request]
    rw [if_neg hno]
    simp [hj]
  · simp only [AioImageWrite.send_request]
    rw [if_neg hno]
  · simp only [clipLength]
    omega
  · by_cases hc : 0 < clipLength ctx off len
    · simp only [request_extents]
      rw [if_pos hc]
      exact extents_length_sum _ _ _ _ _ (Nat.le_refl _) hS
    · simp only [request_extents]
      rw [if_neg hc]
      simp
      omega

/-- Concrete instance of C9: a journaled write of 200 bytes at offset 4000
on a 4096-byte volume journals the unclipped event while mapping only 96
bytes of object extents. -/
theorem C9_witness :
    (AioImageWrite.send_request ctxJournal 4000 200 buf200).appended.map
        Prod.fst =
      [JournalEvent.aioWrite 4000 200 (buf200.take 200)] ∧
    (AioImageWrite.send_request ctxJournal 4000 200 buf200).stats_len =
      clipLength ctxJournal 4000 200 ∧
    clipLength ctxJournal 4000 200 < 200 ∧
    ((request_extents ctxJournal 4000 200).map ObjectExtent.length).sum =
      clipLength ctxJournal 4000 200 :=
  C9_journal_unclipped ctxJournal 4000 200 buf200 rfl rfl rfl
    (by decide) (by decide) (by decide)

end Librbd
